import Mathlib

/-!
# wsn-sniffer-cli: the event dispatcher, the baud table and main

A shallow embedding of `wsn-sniffer-cli.c`.

* `event` is embedded as a function from the unit it receives to the ordered
  list of calls it makes (decoder, display formatter, capture writer, output
  primitives).  Buffers are passed the way the C code passes them: as a pointer
  (an offset into `data`) and a length.
* `baud` is embedded as the pointer walk over the `bauds` table.
* `main` is embedded over the results `getopt_long` hands back, again as the
  ordered list of calls it makes together with the way it ends.

Functions declared in `mac.h`, `uart.h`, `pcap.h`, `dump.h` and `help.h` are
external to the file: they appear as recorded calls, and where their result
steers the control flow (`mac_decode`, `start_uart`) as parameters.
-/

namespace WsnSniffer

/-! ## Machine integers -/

/-- Modulus of `unsigned int`. -/
def UINT_MOD : Nat := 4294967296

/-- Subtraction on `unsigned int`: wraps around below zero. -/
def usub (a b : Nat) : Nat := (a + UINT_MOD - b % UINT_MOD) % UINT_MOD

/-! ## event -/

/-- Tag of a frame event: `enum event { EV_FRAME = 0xff, ... }`. -/
def EV_FRAME : Nat := 0xff

/-- Tag of an info event: `enum event { ..., EV_INFO = 0xfe }`. -/
def EV_INFO : Nat := 0xfe

/-- File descriptor of standard output (`unistd.h`). -/
def STDOUT_FILENO : Nat := 1

/-- The fields of `struct mac_frame` that `event` reads.  `payload` is a pointer
value (`0` is `NULL`), `size` the payload length. -/
structure mac_frame where
  payload : Nat
  size : Nat
deriving DecidableEq, Repr

/-- A pointer argument of a call made by `event`: either `data + off`, or a
pointer value taken from the frame record. -/
inductive Ptr where
  | data (off : Nat)
  | addr (p : Nat)
deriving DecidableEq, Repr

/-- The calls `event` makes, with their arguments. -/
inductive Call where
  | mac_decode (raw : Ptr) (size : Nat)
  | hex_dump (p : Ptr) (size : Nat)
  | warnx (msg : String)
  | mac_display (frame : mac_frame) (info : Nat)
  | append_frame (p : Ptr) (size : Nat)
  | printf (s : String)
  | write (fd : Nat) (p : Ptr) (count : Nat)
  | putchar (c : Nat)
deriving DecidableEq, Repr

/-- The file-scope variables `payload` and `mac_info`. -/
structure Globals where
  payload : Bool
  mac_info : Nat
deriving DecidableEq, Repr

/-- The external `mac_decode(&frame, raw, size)`: from the current contents of
the frame record, the buffer `data`, the offset of `raw` in it and `size`, to
the returned `int` and the contents of the frame record afterwards. -/
abbrev Decoder := mac_frame → List Nat → Nat → Nat → Int × mac_frame

/-- The function `event(data, size)`.  `ndebug` tells whether `NDEBUG` is defined,
`frame0` is the content of the uninitialised local `frame`.  The result is the
ordered list of calls made; `none` when `*data` reads an empty buffer. -/
def event (ndebug : Bool) (dec : Decoder) (g : Globals) (frame0 : mac_frame)
    (data : List Nat) (size : Nat) : Option (List Call) :=
  match data with
  | [] => none
  | tag :: _ =>
    some ((if tag = EV_FRAME then
        let r := dec frame0 data 1 (usub size 1)
        let frame := r.2
        [Call.mac_decode (Ptr.data 1) (usub size 1)]
          ++ (if r.1 < 0 then
                (if ndebug then [] else [Call.hex_dump (Ptr.data 1) size])
                  ++ [Call.warnx "cannot decode frame"]
              else [])
          ++ [Call.mac_display frame g.mac_info]
          ++ [Call.append_frame (Ptr.data 1) size]
          ++ (if g.payload = true ∧ frame.payload ≠ 0 then
                [Call.printf "Payload:\n", Call.hex_dump (Ptr.addr frame.payload) frame.size]
              else [])
      else if tag = EV_INFO then
        [Call.write STDOUT_FILENO (Ptr.data 1) (usub size 1)]
      else
        [Call.warnx "invalid event ignored"]
          ++ (if ndebug then [] else [Call.hex_dump (Ptr.data 0) size]))
      ++ [Call.putchar 10])

/-! ### Observations on a list of calls -/

/-- The `(pointer, size)` arguments of the `mac_decode` calls, in order. -/
def decode_calls (tr : List Call) : List (Ptr × Nat) :=
  tr.filterMap fun c => match c with
    | Call.mac_decode p n => some (p, n)
    | _ => none

/-- The `(frame, info)` arguments of the `mac_display` calls, in order. -/
def display_calls (tr : List Call) : List (mac_frame × Nat) :=
  tr.filterMap fun c => match c with
    | Call.mac_display f i => some (f, i)
    | _ => none

/-- The `(pointer, size)` arguments of the `append_frame` calls, in order. -/
def append_calls (tr : List Call) : List (Ptr × Nat) :=
  tr.filterMap fun c => match c with
    | Call.append_frame p n => some (p, n)
    | _ => none

/-- The `(fd, pointer, count)` arguments of the `write` calls, in order. -/
def write_calls (tr : List Call) : List (Nat × Ptr × Nat) :=
  tr.filterMap fun c => match c with
    | Call.write fd p n => some (fd, p, n)
    | _ => none

/-- The `len` bytes of `data` starting at offset `off`. -/
def slice (data : List Nat) (off len : Nat) : List Nat := (data.drop off).take len

/-- The bytes one call sends to standard output.  `write` on descriptor 1 sends
the bytes it is given, `putchar` one byte, `printf` of a plain string its bytes;
`warnx` writes to standard error.  What the external functions print is given by
`ext`. -/
def call_stdout (ext : Call → List Nat) (data : List Nat) (c : Call) : List Nat :=
  match c with
  | Call.write fd (Ptr.data off) n => if fd = STDOUT_FILENO then slice data off n else []
  | Call.putchar ch => [ch]
  | Call.printf s => s.toUTF8.toList.map fun b => b.toNat
  | Call.warnx _ => []
  | other => ext other

/-- The bytes a list of calls sends to standard output, in order. -/
def stdout_bytes (ext : Call → List Nat) (data : List Nat) (tr : List Call) : List Nat :=
  (tr.map (call_stdout ext data)).flatten

/-- Modelled from the spec: `mac_decode` is defined in `mac.c`, which is not
among the sources, so `event` takes the decoder as a parameter.  This instance
serves to evaluate `event` on concrete units.  It implements the first rule of
the decoder contract (an input shorter than two bytes is a failure) with result
`-1` and the frame record left as it was; a longer input is accepted with
result `0` and an empty payload. -/
def mac_decode_min : Decoder := fun frame _ _ size =>
  if size < 2 then (-1, frame) else (0, { payload := 0, size := 0 })

/-- Two lowercase hexadecimal digits for one byte, as character codes. -/
def hex_byte (b : Nat) : List Nat :=
  let digit := fun n : Nat => if n < 10 then 48 + n else 87 + n
  [digit (b / 16 % 16), digit (b % 16)]

/-- Modelled from the spec: `hex_dump` is defined in `dump.c`, which is not among
the sources, so what it prints is a parameter of `stdout_bytes`.  This instance
serves to evaluate `stdout_bytes` on concrete units.  It is the compiled-in debug
dump of the design notes, printing on standard output: two hexadecimal digits for
each byte of the part of `data` it is given; every other external call prints
nothing. -/
def hex_dump_stdout (data : List Nat) (c : Call) : List Nat :=
  match c with
  | Call.hex_dump (Ptr.data off) n => ((slice data off n).map hex_byte).flatten
  | _ => []

/-! ## baud -/

/-- The `EXIT_SUCCESS` of `stdlib.h`. -/
def EXIT_SUCCESS : Int := 0

/-- The `EXIT_FAILURE` of `stdlib.h`. -/
def EXIT_FAILURE : Int := 1

/-- The speed constants of `termios.h` that the program names. -/
inductive speed_t where
  | B0 | B50 | B75 | B110 | B134 | B150 | B200 | B300 | B1200 | B1800 | B2400
  | B4800 | B9600 | B19200 | B38400 | B57600 | B115200 | B230400
deriving DecidableEq, Repr

/-- The `isspace` of the C locale. -/
def isspace (c : Char) : Bool :=
  c = ' ' || c = '\t' || c = '\n' || c.toNat = 11 || c.toNat = 12 || c = '\r'

/-- The value of the leading run of decimal digits. -/
def atoi_digits (acc : Nat) : List Char → Nat
  | [] => acc
  | c :: cs =>
    if 48 ≤ c.toNat ∧ c.toNat ≤ 57 then atoi_digits (acc * 10 + (c.toNat - 48)) cs else acc

/-- Reduction of an integer to the range of a 32-bit `int`. -/
def to_int32 (n : Int) : Int := (n + 2147483648) % 4294967296 - 2147483648

/-- The `atoi` of the C library: leading white space is skipped, then an
optional sign and the longest run of decimal digits are read; text without
digits there gives 0.  C leaves a value outside the range of `int` undefined;
here it is reduced to 32 bits. -/
def atoi (arg : String) : Int :=
  match arg.toList.dropWhile isspace with
  | '-' :: ds => to_int32 (-(atoi_digits 0 ds : Int))
  | '+' :: ds => to_int32 (atoi_digits 0 ds)
  | ds => to_int32 (atoi_digits 0 ds)

/-- The table `bauds[]` of `baud`, its final entry `{ 0, B0 }` included. -/
def bauds : List (Int × speed_t) :=
  [ (230400, speed_t.B230400),
    (115200, speed_t.B115200),
    (57600, speed_t.B57600),
    (38400, speed_t.B38400),
    (19200, speed_t.B19200),
    (9600, speed_t.B9600),
    (4800, speed_t.B4800),
    (2400, speed_t.B2400),
    (1800, speed_t.B1800),
    (1200, speed_t.B1200),
    (300, speed_t.B300),
    (200, speed_t.B200),
    (150, speed_t.B150),
    (134, speed_t.B134),
    (110, speed_t.B110),
    (75, speed_t.B75),
    (50, speed_t.B50),
    (0, speed_t.B0) ]

/-- How a call of `baud` ends: it returns a speed, it leaves the process through
`errx`, or the pointer `b` walks off the end of the table. -/
inductive BaudResult where
  | ret (s : speed_t)
  | errx (status : Int) (msg : String)
  | out_of_bounds
deriving DecidableEq, Repr

/-- The loop `for(b = bauds; b->intval; b++)` of `baud`.  The list is what the
pointer `b` still has before it: `b` points at its head, `b++` drops the head. -/
def baud_scan (arg_val : Int) : List (Int × speed_t) → BaudResult
  | [] => BaudResult.out_of_bounds
  | b :: rest =>
    if b.1 ≠ 0 then
      if b.1 = arg_val then BaudResult.ret b.2 else baud_scan arg_val rest
    else BaudResult.errx EXIT_FAILURE "unrecognized speed"

/-- The function `baud(arg)`. -/
def baud (arg : String) : BaudResult :=
  let arg_val := atoi arg
  baud_scan arg_val bauds

/-! ## main -/

/-- The display-mask constants of `mac.h`; their values are not part of this
file and are taken as given. -/
structure MacInfoBits where
  MI_CONTROL : Nat
  MI_SEQNO : Nat
  MI_ADDR : Nat
  MI_SECURITY : Nat
  MI_ALL : Nat
deriving DecidableEq, Repr

/-- What the build and the surroundings fix for one run of `main`: the constants
of `mac.h`, the text `PACKAGE " " PACKAGE_VERSION "\n"`, and whether the external
event loop `start_uart` comes back to its caller. -/
structure Env where
  mi : MacInfoBits
  version_line : String
  uart_returns : Bool
deriving DecidableEq, Repr

/-- A command line as `main` sees it through `getopt_long`: `argv[0]`, the
successive results of `getopt_long` (the option character returned, with
`optarg`) up to its `-1`, and the arguments `argv[optind] .. argv[argc-1]` left
after them. -/
structure Cmdline where
  argv0 : String
  opts : List (Char × String)
  args : List String
deriving DecidableEq, Repr

/-- The calls made by `main`, and by the exit hook `cleanup`. -/
inductive MainCall where
  | printf (s : String)
  | help (name usage : String)
  | warnx (msg : String)
  | init_pcap (path : String)
  | atexit_cleanup
  | start_uart (tty : String) (speed : speed_t)
  | destroy_pcap
deriving DecidableEq, Repr

/-- How `main` ends: it returns a status, the process leaves through `errx`,
`start_uart` never comes back, or `baud` read past its table. -/
inductive Outcome where
  | returned (status : Int)
  | exited (status : Int) (msg : String)
  | running
  | fault
deriving DecidableEq, Repr

/-- The calls made by a run of `main` and the way it ended. -/
structure Run where
  calls : List MainCall
  outcome : Outcome
deriving DecidableEq, Repr

/-- The locals of `main` and the file-scope variables it sets. -/
structure MainState where
  pcap : Option String
  speed : speed_t
  mac_info : Nat
  payload : Bool
  exit_status : Int
deriving DecidableEq, Repr

/-- The usage line handed to `help`. -/
def usage : String := "[OPTIONS] ... BAUD-RATE TTY"

/-- The program name: what follows the last slash of `argv[0]`, or all of it. -/
def basename (argv0 : String) : String :=
  String.mk (argv0.toList.reverse.takeWhile fun c => c ≠ '/').reverse

/-- The function `main` from the test on `argc - optind` onwards. -/
def main_run (env : Env) (st : MainState) (args : List String) : Run :=
  match args with
  | [tty] =>
    let calls :=
      (if st.pcap = none ∧ st.mac_info = 0 then [MainCall.warnx "doing nothing as requested"]
        else [])
      ++ (match st.pcap with
          | some path => [MainCall.init_pcap path]
          | none => [])
      ++ [MainCall.atexit_cleanup]
      ++ [MainCall.start_uart tty st.speed]
    if env.uart_returns then { calls := calls, outcome := Outcome.returned st.exit_status }
    else { calls := calls, outcome := Outcome.running }
  | _ => { calls := [], outcome := Outcome.exited EXIT_FAILURE "except tty device" }

/-- What one turn of the option loop does: go on with a new state, or leave the
loop and `main` with it. -/
inductive Turn where
  | next (st : MainState)
  | stop (r : Run)
deriving DecidableEq, Repr

/-- The `switch(c)` of the option loop, for the option character `c` returned by
`getopt_long` and its `optarg`. -/
def main_switch (env : Env) (name : String) (st : MainState) (c : Char) (optarg : String) :
    Turn :=
  if c = 'p' then Turn.next { st with pcap := some optarg }
  else if c = 'b' then
    match baud optarg with
    | BaudResult.ret s => Turn.next { st with speed := s }
    | BaudResult.errx status msg => Turn.stop { calls := [], outcome := Outcome.exited status msg }
    | BaudResult.out_of_bounds => Turn.stop { calls := [], outcome := Outcome.fault }
  else if c = 'c' then Turn.next { st with mac_info := st.mac_info ||| env.mi.MI_CONTROL }
  else if c = 's' then Turn.next { st with mac_info := st.mac_info ||| env.mi.MI_SEQNO }
  else if c = 'a' then Turn.next { st with mac_info := st.mac_info ||| env.mi.MI_ADDR }
  else if c = 'S' then Turn.next { st with mac_info := st.mac_info ||| env.mi.MI_SECURITY }
  else if c = 'M' then Turn.next { st with mac_info := env.mi.MI_ALL }
  else if c = 'P' then Turn.next { st with payload := true }
  else if c = 'A' then Turn.next { st with mac_info := env.mi.MI_ALL }
  else if c = 'V' then
    let st1 := { st with exit_status := EXIT_SUCCESS }
    Turn.stop { calls := [MainCall.printf env.version_line],
                outcome := Outcome.returned st1.exit_status }
  else if c = 'h' then
    let st1 := { st with exit_status := EXIT_SUCCESS }
    Turn.stop { calls := [MainCall.help name usage],
                outcome := Outcome.returned st1.exit_status }
  else
    Turn.stop { calls := [MainCall.help name usage],
                outcome := Outcome.returned st.exit_status }

/-- The option loop of `main`, over the results of `getopt_long` still to come. -/
def main_loop (env : Env) (name : String) (args : List String) :
    MainState → List (Char × String) → Run
  | st, [] => main_run env st args
  | st, (c, optarg) :: rest =>
    match main_switch env name st c optarg with
    | Turn.next st1 => main_loop env name args st1 rest
    | Turn.stop r => r

/-- The state at the start of `main`: `tty`, `pcap` are `NULL`, `speed` is `B0`,
`exit_status` is `EXIT_FAILURE`, the file-scope variables are zero. -/
def main_init : MainState :=
  { pcap := none, speed := speed_t.B0, mac_info := 0, payload := false,
    exit_status := EXIT_FAILURE }

/-- The function `main`. -/
def main (env : Env) (cl : Cmdline) : Run :=
  main_loop env (basename cl.argv0) cl.args main_init cl.opts

/-- The function `cleanup`. -/
def cleanup : List MainCall := [MainCall.destroy_pcap]

/-- The hooks run when the process terminates: one run of `cleanup` for each
registration by `atexit`, the last registered first. -/
def exit_hooks (calls : List MainCall) : List MainCall :=
  ((calls.filter fun c => c = MainCall.atexit_cleanup).reverse.map fun _ => cleanup).flatten

/-- The calls of the whole process: those of `main`, followed, when `main`
returns or the process leaves through `errx`, by the exit hooks. -/
def process (env : Env) (cl : Cmdline) : List MainCall :=
  let r := main env cl
  match r.outcome with
  | Outcome.returned _ => r.calls ++ exit_hooks r.calls
  | Outcome.exited _ _ => r.calls ++ exit_hooks r.calls
  | Outcome.running => r.calls
  | Outcome.fault => r.calls

/-- The options that set a variable and let the option loop go on. -/
def is_setting (c : Char) : Bool :=
  c = 'p' || c = 'b' || c = 'c' || c = 's' || c = 'a' || c = 'S' || c = 'M' || c = 'P' || c = 'A'

/-- The first option of a command line that ends the option loop, if any. -/
def stop_option (opts : List (Char × String)) : Option Char :=
  (opts.find? fun o => !is_setting o.1).map fun o => o.1

end WsnSniffer

namespace WsnSniffer

/-! ## Theorems on event -/

/-- On `unsigned int`, `n + 1 - 1` is `n` as long as `n + 1` is representable. -/
theorem usub_succ_one (n : Nat) (h : n + 1 < UINT_MOD) : usub (n + 1) 1 = n := by
  unfold usub UINT_MOD at *
  omega

/-- C1: for a Frame unit `0xFF :: t` of `n = t.length + 1` bytes, `event` calls the
capture writer `append_frame` once, with start `data + 1` and length `n`, the whole
unit length and not `n - 1`: an 18-byte unit is recorded with length 18, not 17. -/
theorem C1_append_frame_gets_unit_length (ndebug : Bool) (dec : Decoder) (g : Globals)
    (frame0 : mac_frame) (t : List Nat) :
    (event ndebug dec g frame0 (EV_FRAME :: t) (t.length + 1)).map append_calls
        = some [(Ptr.data 1, t.length + 1)]
      ∧ (event ndebug dec g frame0 (EV_FRAME :: List.replicate 17 0) 18).map append_calls
        = some [(Ptr.data 1, 18)] := by
  constructor <;>
  · simp only [event, if_true, Option.map_some', append_calls]
    split_ifs <;> simp [List.filterMap_cons, List.filterMap_append]

/-- C2: when `mac_decode` returns a negative result for a Frame unit, `event` logs
"cannot decode frame" and goes on: it calls `mac_display` once on the frame record the
failed decode left behind, and, when payload display is on and that record has a
non-null `payload`, hex-dumps `payload` with the record's `size`. -/
theorem C2_failed_decode_is_still_displayed (ndebug : Bool) (dec : Decoder) (g : Globals)
    (frame0 : mac_frame) (t : List Nat) (size : Nat)
    (hfail : (dec frame0 (EV_FRAME :: t) 1 (usub size 1)).1 < 0) :
    ∃ tr, event ndebug dec g frame0 (EV_FRAME :: t) size = some tr
      ∧ Call.warnx "cannot decode frame" ∈ tr
      ∧ display_calls tr = [((dec frame0 (EV_FRAME :: t) 1 (usub size 1)).2, g.mac_info)]
      ∧ (g.payload = true → (dec frame0 (EV_FRAME :: t) 1 (usub size 1)).2.payload ≠ 0 →
          Call.hex_dump (Ptr.addr (dec frame0 (EV_FRAME :: t) 1 (usub size 1)).2.payload)
            (dec frame0 (EV_FRAME :: t) 1 (usub size 1)).2.size ∈ tr) := by
  refine ⟨_, rfl, ?_, ?_, ?_⟩
  · simp [hfail]
  · simp only [display_calls, if_true, hfail]
    split_ifs <;> simp [List.filterMap_cons, List.filterMap_append]
  · intro hp hq
    simp [hfail, hp, hq]

/-- Witness for C2 on the unit `[0xFF, 0x00]`, whose one-byte frame the decoder
rejects. -/
theorem C2_failed_decode_is_still_displayed_witness :
    (mac_decode_min { payload := 77, size := 5 } (EV_FRAME :: [0]) 1 (usub 2 1)).1 < 0
      ∧ ∃ tr, event false mac_decode_min { payload := true, mac_info := 0 }
            { payload := 77, size := 5 } (EV_FRAME :: [0]) 2 = some tr
          ∧ Call.warnx "cannot decode frame" ∈ tr
          ∧ display_calls tr
              = [((mac_decode_min { payload := 77, size := 5 } (EV_FRAME :: [0]) 1
                    (usub 2 1)).2, 0)]
          ∧ (true = true →
              (mac_decode_min { payload := 77, size := 5 } (EV_FRAME :: [0]) 1
                (usub 2 1)).2.payload ≠ 0 →
              Call.hex_dump
                (Ptr.addr (mac_decode_min { payload := 77, size := 5 } (EV_FRAME :: [0]) 1
                  (usub 2 1)).2.payload)
                (mac_decode_min { payload := 77, size := 5 } (EV_FRAME :: [0]) 1
                  (usub 2 1)).2.size ∈ tr) :=
  ⟨by decide,
   C2_failed_decode_is_still_displayed false mac_decode_min { payload := true, mac_info := 0 }
     { payload := 77, size := 5 } [0] 2 (by decide)⟩

/-- C3: for every Frame event (first byte `0xFF`), whatever `mac_decode` returns,
negative or not, `event` returns and has called `append_frame` exactly once, with
`data + 1` and `size`: the call and its arguments are the same for every decoder and
every content of the frame record, so what is captured does not depend on the decode
outcome. -/
theorem C3_append_frame_called_once (ndebug : Bool) (dec : Decoder) (g : Globals)
    (frame0 : mac_frame) (t : List Nat) (size : Nat) :
    (event ndebug dec g frame0 (EV_FRAME :: t) size).map append_calls
        = some [(Ptr.data 1, size)]
      ∧ (event ndebug dec g frame0 (EV_FRAME :: t) size).map
          (fun tr => (append_calls tr).length) = some 1
      ∧ (∀ (dec2 : Decoder) (frame2 : mac_frame),
          (event ndebug dec2 g frame2 (EV_FRAME :: t) size).map append_calls
            = (event ndebug dec g frame0 (EV_FRAME :: t) size).map append_calls)
      ∧ ((dec frame0 (EV_FRAME :: t) 1 (usub size 1)).1 < 0 →
          (event ndebug dec g frame0 (EV_FRAME :: t) size).map append_calls
            = some [(Ptr.data 1, size)])
      ∧ (¬ (dec frame0 (EV_FRAME :: t) 1 (usub size 1)).1 < 0 →
          (event ndebug dec g frame0 (EV_FRAME :: t) size).map append_calls
            = some [(Ptr.data 1, size)]) := by
  have key : ∀ (d : Decoder) (f : mac_frame),
      (event ndebug d g f (EV_FRAME :: t) size).map append_calls
        = some [(Ptr.data 1, size)] := by
    intro d f
    simp only [event, if_true, Option.map_some', append_calls]
    split_ifs <;> simp [List.filterMap_cons, List.filterMap_append]
  refine ⟨key dec frame0, ?_, ?_, fun _ => key dec frame0, fun _ => key dec frame0⟩
  · simp only [event, if_true, Option.map_some', append_calls]
    split_ifs <;> simp [List.filterMap_cons, List.filterMap_append]
  · intro dec2 frame2
    rw [key dec2 frame2, key dec frame0]

/-- C4, as the code has it: for an Info unit `0xFE :: t` of `n = t.length + 1` bytes,
`event` makes exactly two calls, `write(1, data + 1, n - 1)` and `putchar('\n')`; so
standard output receives the bytes of `t` verbatim followed by one newline byte, and
neither the decoder nor the capture writer is called. -/
theorem C4_info_written_then_newline (ndebug : Bool) (dec : Decoder) (g : Globals)
    (frame0 : mac_frame) (ext : Call → List Nat) (t : List Nat)
    (hn : t.length + 1 < UINT_MOD) :
    event ndebug dec g frame0 (EV_INFO :: t) (t.length + 1)
        = some [Call.write STDOUT_FILENO (Ptr.data 1) t.length, Call.putchar 10]
      ∧ (event ndebug dec g frame0 (EV_INFO :: t) (t.length + 1)).map
          (stdout_bytes ext (EV_INFO :: t)) = some (t ++ [10])
      ∧ (event ndebug dec g frame0 (EV_INFO :: t) (t.length + 1)).map decode_calls = some []
      ∧ (event ndebug dec g frame0 (EV_INFO :: t) (t.length + 1)).map append_calls
          = some [] := by
  have h : event ndebug dec g frame0 (EV_INFO :: t) (t.length + 1)
      = some [Call.write STDOUT_FILENO (Ptr.data 1) t.length, Call.putchar 10] := by
    simp [event, EV_INFO, EV_FRAME, usub_succ_one t.length hn]
  refine ⟨h, ?_, ?_, ?_⟩
  · simp [h, stdout_bytes, call_stdout, slice]
  · simp [h, decode_calls]
  · simp [h, append_calls]

/-- Witness for C4 on the unit `[0xFE, 'h', 'e', 'l', 'l', 'o']`. -/
theorem C4_info_written_then_newline_witness :
    [104, 101, 108, 108, 111].length + 1 < UINT_MOD
      ∧ (event true mac_decode_min { payload := false, mac_info := 0 }
            { payload := 0, size := 0 } (EV_INFO :: [104, 101, 108, 108, 111])
            ([104, 101, 108, 108, 111].length + 1)
          = some [Call.write STDOUT_FILENO (Ptr.data 1) [104, 101, 108, 108, 111].length,
                  Call.putchar 10]
        ∧ (event true mac_decode_min { payload := false, mac_info := 0 }
            { payload := 0, size := 0 } (EV_INFO :: [104, 101, 108, 108, 111])
            ([104, 101, 108, 108, 111].length + 1)).map
              (stdout_bytes (fun _ => []) (EV_INFO :: [104, 101, 108, 108, 111]))
            = some ([104, 101, 108, 108, 111] ++ [10])
        ∧ (event true mac_decode_min { payload := false, mac_info := 0 }
            { payload := 0, size := 0 } (EV_INFO :: [104, 101, 108, 108, 111])
            ([104, 101, 108, 108, 111].length + 1)).map decode_calls = some []
        ∧ (event true mac_decode_min { payload := false, mac_info := 0 }
            { payload := 0, size := 0 } (EV_INFO :: [104, 101, 108, 108, 111])
            ([104, 101, 108, 108, 111].length + 1)).map append_calls = some []) :=
  ⟨by decide,
   C4_info_written_then_newline true mac_decode_min { payload := false, mac_info := 0 }
     { payload := 0, size := 0 } (fun _ => []) [104, 101, 108, 108, 111] (by decide)⟩

/-- C4 as stated fails: for the unit `[0xFE, 'h', 'e', 'l', 'l', 'o']` standard output
receives the six bytes `hello\n`, not exactly the five bytes `hello`. -/
theorem C4_hello_gets_a_newline :
    (event true mac_decode_min { payload := false, mac_info := 0 }
        { payload := 0, size := 0 } [0xFE, 104, 101, 108, 108, 111] 6).map
          (stdout_bytes (fun _ => []) [0xFE, 104, 101, 108, 108, 111])
        = some [104, 101, 108, 108, 111, 10]
      ∧ (event true mac_decode_min { payload := false, mac_info := 0 }
        { payload := 0, size := 0 } [0xFE, 104, 101, 108, 108, 111] 6).map
          (stdout_bytes (fun _ => []) [0xFE, 104, 101, 108, 108, 111])
        ≠ some [104, 101, 108, 108, 111] := by
  constructor <;> decide

/-- C5: for a unit `0xFF :: t` of `n = t.length + 1` bytes, `event` calls `mac_decode`
exactly once, with start `data + 1` and length `n - 1`; for a unit whose first byte is
not `0xFF` it returns without calling `mac_decode`. -/
theorem C5_decoder_called_once_on_tail (ndebug : Bool) (dec : Decoder) (g : Globals)
    (frame0 : mac_frame) (tag : Nat) (t : List Nat) (size : Nat)
    (hn : t.length + 1 < UINT_MOD) (htag : tag ≠ EV_FRAME) :
    (event ndebug dec g frame0 (EV_FRAME :: t) (t.length + 1)).map decode_calls
        = some [(Ptr.data 1, t.length)]
      ∧ (event ndebug dec g frame0 (tag :: t) size).map decode_calls = some [] := by
  constructor
  · simp only [event, if_true, Option.map_some', decode_calls, usub_succ_one t.length hn]
    split_ifs <;> simp [List.filterMap_cons, List.filterMap_append]
  · simp only [event, if_neg htag, Option.map_some', decode_calls]
    split_ifs <;> simp [List.filterMap_cons, List.filterMap_append]

/-- Witness for C5 on the units `[0xFF, 0x00, 0x00, 0x07]` and `[0xFE, 0x00, 0x00, 0x07]`. -/
theorem C5_decoder_called_once_on_tail_witness :
    [0, 0, 7].length + 1 < UINT_MOD ∧ 0xFE ≠ EV_FRAME
      ∧ ((event false mac_decode_min { payload := true, mac_info := 15 }
            { payload := 77, size := 5 } (EV_FRAME :: [0, 0, 7]) ([0, 0, 7].length + 1)).map
              decode_calls = some [(Ptr.data 1, [0, 0, 7].length)]
        ∧ (event false mac_decode_min { payload := true, mac_info := 15 }
            { payload := 77, size := 5 } (0xFE :: [0, 0, 7]) 4).map decode_calls = some []) :=
  ⟨by decide, by decide,
   C5_decoder_called_once_on_tail false mac_decode_min { payload := true, mac_info := 15 }
     { payload := 77, size := 5 } 0xFE [0, 0, 7] 4 (by decide) (by decide)⟩

/-- C6, as the code has it: for a unit whose first byte is neither `0xFF` nor `0xFE`,
`event` returns after the warning "invalid event ignored", followed, unless `NDEBUG`
is defined, by the diagnostic `hex_dump(data, size)` of the whole unit, and the closing
`putchar('\n')`.  It calls neither `mac_decode`, nor `mac_display`, nor `append_frame`,
and makes no `write`.  Standard output receives what that `hex_dump` prints there, if
it is compiled in, and then the newline; with `NDEBUG` the newline only. -/
theorem C6_unknown_tag_is_warned_and_dropped (ndebug : Bool) (dec : Decoder) (g : Globals)
    (frame0 : mac_frame) (tag : Nat) (t : List Nat) (size : Nat)
    (hframe : tag ≠ EV_FRAME) (hinfo : tag ≠ EV_INFO) :
    ∃ tr, event ndebug dec g frame0 (tag :: t) size = some tr
      ∧ tr = [Call.warnx "invalid event ignored"]
              ++ (if ndebug then [] else [Call.hex_dump (Ptr.data 0) size])
              ++ [Call.putchar 10]
      ∧ decode_calls tr = [] ∧ display_calls tr = [] ∧ append_calls tr = []
      ∧ write_calls tr = []
      ∧ (ndebug = true → ∀ ext, stdout_bytes ext (tag :: t) tr = [10])
      ∧ (∀ ext, stdout_bytes ext (tag :: t) tr
          = (if ndebug then [] else ext (Call.hex_dump (Ptr.data 0) size)) ++ [10]) := by
  refine ⟨_, rfl, ?_, ?_, ?_, ?_, ?_, ?_, ?_⟩
  · simp [hframe, hinfo]
  · simp only [decode_calls, if_neg hframe, if_neg hinfo]
    split_ifs <;> simp [List.filterMap_cons, List.filterMap_append]
  · simp only [display_calls, if_neg hframe, if_neg hinfo]
    split_ifs <;> simp [List.filterMap_cons, List.filterMap_append]
  · simp only [append_calls, if_neg hframe, if_neg hinfo]
    split_ifs <;> simp [List.filterMap_cons, List.filterMap_append]
  · simp only [write_calls, if_neg hframe, if_neg hinfo]
    split_ifs <;> simp [List.filterMap_cons, List.filterMap_append]
  · intro hnd ext
    simp [hframe, hinfo, hnd, stdout_bytes, call_stdout]
  · intro ext
    cases ndebug <;> simp [hframe, hinfo, stdout_bytes, call_stdout]

/-- Witness for C6 on the unit `[0x01, 0x68, 0x65]` in a build without `NDEBUG`. -/
theorem C6_unknown_tag_is_warned_and_dropped_witness :
    1 ≠ EV_FRAME ∧ 1 ≠ EV_INFO
      ∧ ∃ tr, event false mac_decode_min { payload := true, mac_info := 15 }
            { payload := 77, size := 5 } (1 :: [104, 101]) 3 = some tr
          ∧ tr = [Call.warnx "invalid event ignored"]
                  ++ (if false = true then [] else [Call.hex_dump (Ptr.data 0) 3])
                  ++ [Call.putchar 10]
          ∧ decode_calls tr = [] ∧ display_calls tr = [] ∧ append_calls tr = []
          ∧ write_calls tr = []
          ∧ (false = true → ∀ ext, stdout_bytes ext (1 :: [104, 101]) tr = [10])
          ∧ (∀ ext, stdout_bytes ext (1 :: [104, 101]) tr
              = (if false = true then [] else ext (Call.hex_dump (Ptr.data 0) 3)) ++ [10]) :=
  ⟨by decide, by decide,
   C6_unknown_tag_is_warned_and_dropped false mac_decode_min { payload := true, mac_info := 15 }
     { payload := 77, size := 5 } 1 [104, 101] 3 (by decide) (by decide)⟩

/-- C6 as stated fails in a build without `NDEBUG`: for the unit `[0x01, 0x68, 0x65]`
`event` does not only warn, it also hands the whole unit to `hex_dump(data, 3)`; and
with a `hex_dump` that prints on standard output the unit's bytes reach it, as the
text `016865`, before the newline. -/
theorem C6_default_build_dumps_the_unit :
    event false mac_decode_min { payload := false, mac_info := 0 }
        { payload := 0, size := 0 } [1, 104, 101] 3
        = some [Call.warnx "invalid event ignored", Call.hex_dump (Ptr.data 0) 3,
                Call.putchar 10]
      ∧ event false mac_decode_min { payload := false, mac_info := 0 }
        { payload := 0, size := 0 } [1, 104, 101] 3
        ≠ some [Call.warnx "invalid event ignored", Call.putchar 10]
      ∧ (event false mac_decode_min { payload := false, mac_info := 0 }
        { payload := 0, size := 0 } [1, 104, 101] 3).map
          (stdout_bytes (hex_dump_stdout [1, 104, 101]) [1, 104, 101])
        = some [48, 49, 54, 56, 54, 53, 10]
      ∧ (event false mac_decode_min { payload := false, mac_info := 0 }
        { payload := 0, size := 0 } [1, 104, 101] 3).map
          (stdout_bytes (hex_dump_stdout [1, 104, 101]) [1, 104, 101])
        ≠ some [10] := by
  refine ⟨by decide, by decide, by decide, by decide⟩

/-! ## Theorems on baud -/

/-- The scan of the table, for a value that is in none of its entries. -/
theorem baud_scan_other (n : Int)
    (h : n ≠ 230400 ∧ n ≠ 115200 ∧ n ≠ 57600 ∧ n ≠ 38400 ∧ n ≠ 19200 ∧ n ≠ 9600 ∧ n ≠ 4800
      ∧ n ≠ 2400 ∧ n ≠ 1800 ∧ n ≠ 1200 ∧ n ≠ 300 ∧ n ≠ 200 ∧ n ≠ 150 ∧ n ≠ 134 ∧ n ≠ 110
      ∧ n ≠ 75 ∧ n ≠ 50) :
    baud_scan n bauds = BaudResult.errx EXIT_FAILURE "unrecognized speed" := by
  obtain ⟨h1, h2, h3, h4, h5, h6, h7, h8, h9, h10, h11, h12, h13, h14, h15, h16, h17⟩ := h
  simp [baud_scan, bauds, Ne.symm h1, Ne.symm h2, Ne.symm h3, Ne.symm h4, Ne.symm h5,
    Ne.symm h6, Ne.symm h7, Ne.symm h8, Ne.symm h9, Ne.symm h10, Ne.symm h11, Ne.symm h12,
    Ne.symm h13, Ne.symm h14, Ne.symm h15, Ne.symm h16, Ne.symm h17]

/-- What the scan of the table gives for each integer. -/
theorem baud_scan_spec (n : Int) :
    (∀ s, baud_scan n bauds = BaudResult.ret s ↔
        (n, s) ∈ [((230400 : Int), speed_t.B230400), (115200, speed_t.B115200),
          (57600, speed_t.B57600), (38400, speed_t.B38400), (19200, speed_t.B19200),
          (9600, speed_t.B9600), (4800, speed_t.B4800), (2400, speed_t.B2400),
          (1800, speed_t.B1800), (1200, speed_t.B1200), (300, speed_t.B300),
          (200, speed_t.B200), (150, speed_t.B150), (134, speed_t.B134),
          (110, speed_t.B110), (75, speed_t.B75), (50, speed_t.B50)])
      ∧ (baud_scan n bauds = BaudResult.errx EXIT_FAILURE "unrecognized speed" ↔
        n ∉ [(230400 : Int), 115200, 57600, 38400, 19200, 9600, 4800, 2400, 1800, 1200, 300,
          200, 150, 134, 110, 75, 50])
      ∧ baud_scan n bauds ≠ BaudResult.ret speed_t.B0
      ∧ baud_scan n bauds ≠ BaudResult.out_of_bounds := by
  have hc : n = 230400 ∨ n = 115200 ∨ n = 57600 ∨ n = 38400 ∨ n = 19200 ∨ n = 9600
      ∨ n = 4800 ∨ n = 2400 ∨ n = 1800 ∨ n = 1200 ∨ n = 300 ∨ n = 200 ∨ n = 150 ∨ n = 134
      ∨ n = 110 ∨ n = 75 ∨ n = 50
      ∨ (n ≠ 230400 ∧ n ≠ 115200 ∧ n ≠ 57600 ∧ n ≠ 38400 ∧ n ≠ 19200 ∧ n ≠ 9600 ∧ n ≠ 4800
        ∧ n ≠ 2400 ∧ n ≠ 1800 ∧ n ≠ 1200 ∧ n ≠ 300 ∧ n ≠ 200 ∧ n ≠ 150 ∧ n ≠ 134 ∧ n ≠ 110
        ∧ n ≠ 75 ∧ n ≠ 50) := by omega
  rcases hc with h | h | h | h | h | h | h | h | h | h | h | h | h | h | h | h | h | h
  case inr.inr.inr.inr.inr.inr.inr.inr.inr.inr.inr.inr.inr.inr.inr.inr.inr =>
    rw [baud_scan_other n h]
    obtain ⟨h1, h2, h3, h4, h5, h6, h7, h8, h9, h10, h11, h12, h13, h14, h15, h16, h17⟩ := h
    simp [*]
  all_goals
    subst h
    refine ⟨fun s => ?_, ?_, ?_, ?_⟩
    · cases s <;> decide
    · decide
    · decide
    · decide

/-- C9: `baud(arg)` returns the speed constant paired with `n = atoi(arg)` exactly when
`n` is one of the 17 listed rates, and otherwise fails with "unrecognized speed"
(so for 0, for negative values and for text without digits); it never returns `B0`,
and the scan of the table ends before leaving the table. -/
theorem C9_baud_returns_exactly_the_listed_rates (arg : String) :
    (∀ s, baud arg = BaudResult.ret s ↔
        (atoi arg, s) ∈ [((230400 : Int), speed_t.B230400), (115200, speed_t.B115200),
          (57600, speed_t.B57600), (38400, speed_t.B38400), (19200, speed_t.B19200),
          (9600, speed_t.B9600), (4800, speed_t.B4800), (2400, speed_t.B2400),
          (1800, speed_t.B1800), (1200, speed_t.B1200), (300, speed_t.B300),
          (200, speed_t.B200), (150, speed_t.B150), (134, speed_t.B134),
          (110, speed_t.B110), (75, speed_t.B75), (50, speed_t.B50)])
      ∧ (baud arg = BaudResult.errx EXIT_FAILURE "unrecognized speed" ↔
        atoi arg ∉ [(230400 : Int), 115200, 57600, 38400, 19200, 9600, 4800, 2400, 1800,
          1200, 300, 200, 150, 134, 110, 75, 50])
      ∧ (atoi arg ≤ 0 → baud arg = BaudResult.errx EXIT_FAILURE "unrecognized speed")
      ∧ baud arg ≠ BaudResult.ret speed_t.B0
      ∧ baud arg ≠ BaudResult.out_of_bounds
      ∧ baud "0" = BaudResult.errx EXIT_FAILURE "unrecognized speed"
      ∧ baud "-9600" = BaudResult.errx EXIT_FAILURE "unrecognized speed"
      ∧ baud "fast" = BaudResult.errx EXIT_FAILURE "unrecognized speed"
      ∧ baud "115200" = BaudResult.ret speed_t.B115200 := by
  obtain ⟨h1, h2, h3, h4⟩ := baud_scan_spec (atoi arg)
  refine ⟨h1, h2, ?_, h3, h4, by decide, by decide, by decide, by decide⟩
  intro hle
  apply baud_scan_other
  omega

/-! ## Theorems on main -/

/-- The calls of `main` once the option loop is over and one argument is left. -/
theorem main_run_one (env : Env) (st : MainState) (tty : String) :
    (main_run env st [tty]).calls
        = (if st.pcap = none ∧ st.mac_info = 0
            then [MainCall.warnx "doing nothing as requested"] else [])
          ++ (match st.pcap with
              | some path => [MainCall.init_pcap path]
              | none => [])
          ++ [MainCall.atexit_cleanup]
          ++ [MainCall.start_uart tty st.speed]
      ∧ (main_run env st [tty]).outcome
        = if env.uart_returns then Outcome.returned st.exit_status else Outcome.running := by
  simp only [main_run]
  cases env.uart_returns <;> exact ⟨rfl, rfl⟩

/-- The run of `main` once the option loop is over and the number of arguments left
is not one. -/
theorem main_run_other (env : Env) (st : MainState) (args : List String)
    (h : args.length ≠ 1) :
    main_run env st args
      = { calls := [], outcome := Outcome.exited EXIT_FAILURE "except tty device" } := by
  rcases args with _ | ⟨a, _ | ⟨b, l⟩⟩
  · rfl
  · exact absurd rfl h
  · rfl

/-- The lists of calls `main` can make from the test on `argc - optind` onwards. -/
theorem main_run_calls (env : Env) (st : MainState) (args : List String) :
    (main_run env st args).calls = []
      ∨ (∃ tty sp, (main_run env st args).calls
          = [MainCall.atexit_cleanup, MainCall.start_uart tty sp])
      ∨ (∃ m tty sp, (main_run env st args).calls
          = [MainCall.warnx m, MainCall.atexit_cleanup, MainCall.start_uart tty sp])
      ∨ (∃ path tty sp, (main_run env st args).calls
          = [MainCall.init_pcap path, MainCall.atexit_cleanup, MainCall.start_uart tty sp]) := by
  by_cases hl : args.length = 1
  · obtain ⟨tty, rfl⟩ := List.length_eq_one.mp hl
    rw [(main_run_one env st tty).1]
    rcases hp : st.pcap with _ | path
    · by_cases hm : st.mac_info = 0
      · right; right; left
        exact ⟨"doing nothing as requested", tty, st.speed, by simp [hm]⟩
      · right; left
        exact ⟨tty, st.speed, by simp [hm]⟩
    · right; right; right
      exact ⟨path, tty, st.speed, by simp⟩
  · left
    rw [main_run_other env st args hl]

/-- The turns of the option loop that leave `main`. -/
theorem main_switch_stop (env : Env) (name : String) (st : MainState) (c : Char)
    (optarg : String) (r : Run) (h : main_switch env name st c optarg = Turn.stop r) :
    (c = 'b' ∧ r.calls = [] ∧ ∀ status, r.outcome ≠ Outcome.returned status)
      ∨ (c = 'V' ∧ r = { calls := [MainCall.printf env.version_line],
                         outcome := Outcome.returned EXIT_SUCCESS })
      ∨ (c = 'h' ∧ r = { calls := [MainCall.help name usage],
                         outcome := Outcome.returned EXIT_SUCCESS })
      ∨ (is_setting c = false ∧ c ≠ 'V' ∧ c ≠ 'h'
          ∧ r = { calls := [MainCall.help name usage],
                  outcome := Outcome.returned st.exit_status }) := by
  unfold main_switch at h
  by_cases h1 : c = 'p'
  · rw [if_pos h1] at h; cases h
  rw [if_neg h1] at h
  by_cases h2 : c = 'b'
  · rw [if_pos h2] at h
    left
    refine ⟨h2, ?_⟩
    split at h
    · cases h
    · cases h; exact ⟨rfl, fun _ hh => by cases hh⟩
    · cases h; exact ⟨rfl, fun _ hh => by cases hh⟩
  rw [if_neg h2] at h
  by_cases h3 : c = 'c'
  · rw [if_pos h3] at h; cases h
  rw [if_neg h3] at h
  by_cases h4 : c = 's'
  · rw [if_pos h4] at h; cases h
  rw [if_neg h4] at h
  by_cases h5 : c = 'a'
  · rw [if_pos h5] at h; cases h
  rw [if_neg h5] at h
  by_cases h6 : c = 'S'
  · rw [if_pos h6] at h; cases h
  rw [if_neg h6] at h
  by_cases h7 : c = 'M'
  · rw [if_pos h7] at h; cases h
  rw [if_neg h7] at h
  by_cases h8 : c = 'P'
  · rw [if_pos h8] at h; cases h
  rw [if_neg h8] at h
  by_cases h9 : c = 'A'
  · rw [if_pos h9] at h; cases h
  rw [if_neg h9] at h
  by_cases h10 : c = 'V'
  · rw [if_pos h10] at h; cases h
    exact Or.inr (Or.inl ⟨h10, rfl⟩)
  rw [if_neg h10] at h
  by_cases h11 : c = 'h'
  · rw [if_pos h11] at h; cases h
    exact Or.inr (Or.inr (Or.inl ⟨h11, rfl⟩))
  rw [if_neg h11] at h
  cases h
  refine Or.inr (Or.inr (Or.inr ⟨?_, h10, h11, rfl⟩))
  unfold is_setting
  rw [decide_eq_false h1, decide_eq_false h2, decide_eq_false h3, decide_eq_false h4,
    decide_eq_false h5, decide_eq_false h6, decide_eq_false h7, decide_eq_false h8,
    decide_eq_false h9]
  rfl


/-- The turns of the option loop that go on: the option is one of those that set a
variable, and `exit_status` is left as it was. -/
theorem main_switch_next (env : Env) (name : String) (st : MainState) (c : Char)
    (optarg : String) (st1 : MainState) (h : main_switch env name st c optarg = Turn.next st1) :
    is_setting c = true ∧ st1.exit_status = st.exit_status := by
  unfold main_switch at h
  by_cases h1 : c = 'p'
  · rw [if_pos h1] at h; cases h; subst h1; exact ⟨rfl, rfl⟩
  rw [if_neg h1] at h
  by_cases h2 : c = 'b'
  · rw [if_pos h2] at h
    split at h
    · cases h; subst h2; exact ⟨rfl, rfl⟩
    · cases h
    · cases h
  rw [if_neg h2] at h
  by_cases h3 : c = 'c'
  · rw [if_pos h3] at h; cases h; subst h3; exact ⟨rfl, rfl⟩
  rw [if_neg h3] at h
  by_cases h4 : c = 's'
  · rw [if_pos h4] at h; cases h; subst h4; exact ⟨rfl, rfl⟩
  rw [if_neg h4] at h
  by_cases h5 : c = 'a'
  · rw [if_pos h5] at h; cases h; subst h5; exact ⟨rfl, rfl⟩
  rw [if_neg h5] at h
  by_cases h6 : c = 'S'
  · rw [if_pos h6] at h; cases h; subst h6; exact ⟨rfl, rfl⟩
  rw [if_neg h6] at h
  by_cases h7 : c = 'M'
  · rw [if_pos h7] at h; cases h; subst h7; exact ⟨rfl, rfl⟩
  rw [if_neg h7] at h
  by_cases h8 : c = 'P'
  · rw [if_pos h8] at h; cases h; subst h8; exact ⟨rfl, rfl⟩
  rw [if_neg h8] at h
  by_cases h9 : c = 'A'
  · rw [if_pos h9] at h; cases h; subst h9; exact ⟨rfl, rfl⟩
  rw [if_neg h9] at h
  by_cases h10 : c = 'V'
  · rw [if_pos h10] at h; cases h
  rw [if_neg h10] at h
  by_cases h11 : c = 'h'
  · rw [if_pos h11] at h; cases h
  rw [if_neg h11] at h
  cases h

/-- The lists of calls `main` can make. -/
theorem main_loop_calls (env : Env) (name : String) (args : List String)
    (opts : List (Char × String)) : ∀ st : MainState,
    (main_loop env name args st opts).calls = []
      ∨ (∃ s, (main_loop env name args st opts).calls = [MainCall.printf s])
      ∨ (∃ n u, (main_loop env name args st opts).calls = [MainCall.help n u])
      ∨ (∃ tty sp, (main_loop env name args st opts).calls
          = [MainCall.atexit_cleanup, MainCall.start_uart tty sp])
      ∨ (∃ m tty sp, (main_loop env name args st opts).calls
          = [MainCall.warnx m, MainCall.atexit_cleanup, MainCall.start_uart tty sp])
      ∨ (∃ path tty sp, (main_loop env name args st opts).calls
          = [MainCall.init_pcap path, MainCall.atexit_cleanup, MainCall.start_uart tty sp]) := by
  induction opts with
  | nil =>
    intro st
    rw [main_loop]
    rcases main_run_calls env st args with h | h | h | h
    · exact Or.inl h
    · exact Or.inr (Or.inr (Or.inr (Or.inl h)))
    · exact Or.inr (Or.inr (Or.inr (Or.inr (Or.inl h))))
    · exact Or.inr (Or.inr (Or.inr (Or.inr (Or.inr h))))
  | cons o rest ih =>
    intro st
    obtain ⟨c, optarg⟩ := o
    rw [main_loop]
    rcases hsw : main_switch env name st c optarg with st1 | r
    · exact ih st1
    · rcases main_switch_stop env name st c optarg r hsw with
        ⟨_, h, _⟩ | ⟨_, h⟩ | ⟨_, h⟩ | ⟨_, _, _, h⟩
      · exact Or.inl h
      · exact Or.inr (Or.inl ⟨_, by rw [h]⟩)
      · exact Or.inr (Or.inr (Or.inl ⟨_, _, by rw [h]⟩))
      · exact Or.inr (Or.inr (Or.inl ⟨_, _, by rw [h]⟩))

/-- The option that stops the loop, for a command line starting with a setting. -/
theorem stop_option_cons (c : Char) (optarg : String) (rest : List (Char × String)) :
    stop_option ((c, optarg) :: rest)
      = if is_setting c = true then stop_option rest else some c := by
  unfold stop_option
  rw [List.find?_cons]
  cases h : is_setting c <;> simp

/-- How `main` returns: the four ways, with the status of each. -/
theorem main_loop_returned (env : Env) (name : String) (args : List String)
    (opts : List (Char × String)) : ∀ (st : MainState) (status : Int),
    st.exit_status = EXIT_FAILURE →
    (main_loop env name args st opts).outcome = Outcome.returned status →
    (stop_option opts = some 'V' ∧ status = EXIT_SUCCESS
        ∧ (main_loop env name args st opts).calls = [MainCall.printf env.version_line])
      ∨ (stop_option opts = some 'h' ∧ status = EXIT_SUCCESS
        ∧ (main_loop env name args st opts).calls = [MainCall.help name usage])
      ∨ ((∃ c, stop_option opts = some c ∧ c ≠ 'V' ∧ c ≠ 'h') ∧ status = EXIT_FAILURE
        ∧ (main_loop env name args st opts).calls = [MainCall.help name usage])
      ∨ (stop_option opts = none ∧ status = EXIT_FAILURE ∧ env.uart_returns = true
        ∧ ∃ tty sp, args = [tty]
          ∧ MainCall.start_uart tty sp ∈ (main_loop env name args st opts).calls) := by
  induction opts with
  | nil =>
    intro st status hst h
    rw [main_loop] at h ⊢
    right; right; right
    by_cases hl : args.length = 1
    · obtain ⟨tty, rfl⟩ := List.length_eq_one.mp hl
      obtain ⟨hc, ho⟩ := main_run_one env st tty
      rw [ho] at h
      cases hu : env.uart_returns
      · rw [hu] at h; cases h
      · rw [hu] at h
        simp only [if_true] at h
        cases h
        refine ⟨rfl, hst, rfl, tty, st.speed, rfl, ?_⟩
        rw [hc]
        simp
    · rw [main_run_other env st args hl] at h
      cases h
  | cons o rest ih =>
    intro st status hst h
    obtain ⟨c, optarg⟩ := o
    rw [main_loop] at h ⊢
    rw [stop_option_cons]
    rcases hsw : main_switch env name st c optarg with st1 | r
    · rw [hsw] at h
      obtain ⟨hset, hex⟩ := main_switch_next env name st c optarg st1 hsw
      rw [if_pos hset]
      exact ih st1 status (hex.trans hst) h
    · rw [hsw] at h
      rcases main_switch_stop env name st c optarg r hsw with
        ⟨_, _, hno⟩ | ⟨hc, hr⟩ | ⟨hc, hr⟩ | ⟨hset, hV, hh, hr⟩
      · exact absurd h (hno status)
      · subst hc
        rw [hr] at h
        cases h
        left
        exact ⟨rfl, rfl, by rw [hr]⟩
      · subst hc
        rw [hr] at h
        cases h
        right; left
        exact ⟨rfl, rfl, by rw [hr]⟩
      · rw [hr] at h
        cases h
        right; right; left
        rw [hset]
        exact ⟨⟨c, rfl, hV, hh⟩, hst, by rw [hr]⟩

/-- C7: a command line whose non-option arguments are the two of the usage line,
BAUD-RATE then TTY, is refused: `main` makes no call at all and the process leaves
through `errx(EXIT_FAILURE, "except tty device")`; the sniffer is started only when a
single argument TTY is left, the baud rate being given by the `-b` option. -/
theorem C7_baud_rate_and_tty_are_refused (env : Env) (argv0 baud_rate tty : String) :
    main env { argv0 := argv0, opts := [], args := [baud_rate, tty] }
        = { calls := [], outcome := Outcome.exited EXIT_FAILURE "except tty device" }
      ∧ main env { argv0 := "wsn-sniffer-cli", opts := [],
                   args := ["115200", "/dev/ttyUSB0"] }
        = { calls := [], outcome := Outcome.exited EXIT_FAILURE "except tty device" }
      ∧ (main env { argv0 := "wsn-sniffer-cli",
                    opts := [('b', "115200"), ('p', "out.pcap")],
                    args := ["/dev/ttyUSB0"] }).calls
        = [MainCall.init_pcap "out.pcap", MainCall.atexit_cleanup,
           MainCall.start_uart "/dev/ttyUSB0" speed_t.B115200] := by
  refine ⟨rfl, rfl, ?_⟩
  obtain ⟨mi, version_line, uart_returns⟩ := env
  cases uart_returns <;> rfl

/-- In each list of calls `main` can make, `atexit(cleanup)` comes before
`start_uart`. -/
theorem hook_before_start_uart (l pre post : List MainCall) (tty : String) (sp : speed_t)
    (hl : l = []
      ∨ (∃ s, l = [MainCall.printf s])
      ∨ (∃ n u, l = [MainCall.help n u])
      ∨ (∃ t p, l = [MainCall.atexit_cleanup, MainCall.start_uart t p])
      ∨ (∃ m t p, l = [MainCall.warnx m, MainCall.atexit_cleanup, MainCall.start_uart t p])
      ∨ (∃ q t p, l = [MainCall.init_pcap q, MainCall.atexit_cleanup, MainCall.start_uart t p]))
    (h : l = pre ++ MainCall.start_uart tty sp :: post) :
    MainCall.atexit_cleanup ∈ pre := by
  rcases hl with hc | ⟨s, hc⟩ | ⟨n, u, hc⟩ | ⟨t, p, hc⟩ | ⟨m, t, p, hc⟩ | ⟨q, t, p, hc⟩
  all_goals
    subst hc
    rcases pre with _ | ⟨a, _ | ⟨b, _ | ⟨c, _ | ⟨d, l⟩⟩⟩⟩
    all_goals simp at h
    all_goals simp [h]

/-- In each list of calls `main` can make, `atexit(cleanup)` comes after `init_pcap`. -/
theorem hook_after_init_pcap (l pre post : List MainCall) (path : String)
    (hl : l = []
      ∨ (∃ s, l = [MainCall.printf s])
      ∨ (∃ n u, l = [MainCall.help n u])
      ∨ (∃ t p, l = [MainCall.atexit_cleanup, MainCall.start_uart t p])
      ∨ (∃ m t p, l = [MainCall.warnx m, MainCall.atexit_cleanup, MainCall.start_uart t p])
      ∨ (∃ q t p, l = [MainCall.init_pcap q, MainCall.atexit_cleanup, MainCall.start_uart t p]))
    (h : l = pre ++ MainCall.init_pcap path :: post) :
    MainCall.atexit_cleanup ∈ post := by
  rcases hl with hc | ⟨s, hc⟩ | ⟨n, u, hc⟩ | ⟨t, p, hc⟩ | ⟨m, t, p, hc⟩ | ⟨q, t, p, hc⟩
  all_goals
    subst hc
    rcases pre with _ | ⟨a, _ | ⟨b, _ | ⟨c, _ | ⟨d, l⟩⟩⟩⟩
    all_goals simp at h
    all_goals simp [← h]

/-- C8: in every run of `main`, a call of `start_uart` comes after the registration
`atexit(cleanup)`, and a call of `init_pcap` is followed by that registration; so when
`start_uart` comes back and `main` returns, the process runs `cleanup`, that is
`destroy_pcap`, right after the event loop and before it terminates. -/
theorem C8_cleanup_is_registered_before_the_loop (env : Env) (cl : Cmdline) :
    (∀ pre tty sp post, (main env cl).calls = pre ++ MainCall.start_uart tty sp :: post →
        MainCall.atexit_cleanup ∈ pre)
      ∧ (∀ pre path post, (main env cl).calls = pre ++ MainCall.init_pcap path :: post →
        MainCall.atexit_cleanup ∈ post)
      ∧ (∀ status tty sp, (main env cl).outcome = Outcome.returned status →
        MainCall.start_uart tty sp ∈ (main env cl).calls →
        process env cl = (main env cl).calls ++ [MainCall.destroy_pcap]
          ∧ ∃ pre, process env cl
              = pre ++ [MainCall.start_uart tty sp, MainCall.destroy_pcap])
      ∧ process { mi := env.mi, version_line := env.version_line, uart_returns := true }
          { argv0 := "wsn-sniffer-cli", opts := [('b', "115200"), ('p', "out.pcap")],
            args := ["/dev/ttyUSB0"] }
        = [MainCall.init_pcap "out.pcap", MainCall.atexit_cleanup,
           MainCall.start_uart "/dev/ttyUSB0" speed_t.B115200, MainCall.destroy_pcap] := by
  have shapes := main_loop_calls env (basename cl.argv0) cl.args cl.opts main_init
  refine ⟨?_, ?_, ?_, ?_⟩
  · intro pre tty sp post h
    exact hook_before_start_uart _ pre post tty sp shapes h
  · intro pre path post h
    exact hook_after_init_pcap _ pre post path shapes h
  · intro status tty sp hout hmem
    have hp : process env cl = (main env cl).calls ++ exit_hooks (main env cl).calls := by
      unfold process
      simp only [hout]
    unfold main at hmem hp ⊢
    rcases shapes with hc | ⟨s, hc⟩ | ⟨n, u, hc⟩ | ⟨t, p, hc⟩ | ⟨m, t, p, hc⟩ | ⟨q, t, p, hc⟩
    · rw [hc] at hmem; simp at hmem
    · rw [hc] at hmem; simp at hmem
    · rw [hc] at hmem; simp at hmem
    · rw [hc] at hmem hp ⊢
      simp at hmem
      obtain ⟨rfl, rfl⟩ := hmem
      have he : exit_hooks [MainCall.atexit_cleanup, MainCall.start_uart tty sp]
          = [MainCall.destroy_pcap] := by
        simp [exit_hooks, cleanup]
      rw [hp, he]
      exact ⟨rfl, [MainCall.atexit_cleanup], rfl⟩
    · rw [hc] at hmem hp ⊢
      simp at hmem
      obtain ⟨rfl, rfl⟩ := hmem
      have he : exit_hooks [MainCall.warnx m, MainCall.atexit_cleanup,
          MainCall.start_uart tty sp] = [MainCall.destroy_pcap] := by
        simp [exit_hooks, cleanup]
      rw [hp, he]
      exact ⟨rfl, [MainCall.warnx m, MainCall.atexit_cleanup], rfl⟩
    · rw [hc] at hmem hp ⊢
      simp at hmem
      obtain ⟨rfl, rfl⟩ := hmem
      have he : exit_hooks [MainCall.init_pcap q, MainCall.atexit_cleanup,
          MainCall.start_uart tty sp] = [MainCall.destroy_pcap] := by
        simp [exit_hooks, cleanup]
      rw [hp, he]
      exact ⟨rfl, [MainCall.init_pcap q, MainCall.atexit_cleanup], rfl⟩
  · rfl

/-- C10: when `main` returns, it does so in one of four ways: stopped by `-V` with
`EXIT_SUCCESS`, stopped by `-h` with `EXIT_SUCCESS` after `help`, stopped by any other
option that is not a setting with `EXIT_FAILURE` after `help`, or after `start_uart`
came back, with `EXIT_FAILURE`.  So the status is `EXIT_SUCCESS` exactly when the run
stopped at `-V` or `-h`; and `-V`, `-h` and an unrecognised option do make `main`
return, with these statuses. -/
theorem C10_success_only_for_version_and_help (env : Env) (cl : Cmdline) (status : Int)
    (h : (main env cl).outcome = Outcome.returned status) :
    ((stop_option cl.opts = some 'V' ∧ status = EXIT_SUCCESS
          ∧ (main env cl).calls = [MainCall.printf env.version_line])
        ∨ (stop_option cl.opts = some 'h' ∧ status = EXIT_SUCCESS
          ∧ (main env cl).calls = [MainCall.help (basename cl.argv0) usage])
        ∨ ((∃ c, stop_option cl.opts = some c ∧ c ≠ 'V' ∧ c ≠ 'h') ∧ status = EXIT_FAILURE
          ∧ (main env cl).calls = [MainCall.help (basename cl.argv0) usage])
        ∨ (stop_option cl.opts = none ∧ status = EXIT_FAILURE ∧ env.uart_returns = true
          ∧ ∃ tty sp, cl.args = [tty] ∧ MainCall.start_uart tty sp ∈ (main env cl).calls))
      ∧ (status = EXIT_SUCCESS ↔
          stop_option cl.opts = some 'V' ∨ stop_option cl.opts = some 'h')
      ∧ (status = EXIT_SUCCESS ∨ status = EXIT_FAILURE)
      ∧ main env { argv0 := cl.argv0, opts := [('V', "")], args := cl.args }
          = { calls := [MainCall.printf env.version_line],
              outcome := Outcome.returned EXIT_SUCCESS }
      ∧ main env { argv0 := cl.argv0, opts := [('h', "")], args := cl.args }
          = { calls := [MainCall.help (basename cl.argv0) usage],
              outcome := Outcome.returned EXIT_SUCCESS }
      ∧ main env { argv0 := cl.argv0, opts := [('?', "")], args := cl.args }
          = { calls := [MainCall.help (basename cl.argv0) usage],
              outcome := Outcome.returned EXIT_FAILURE } := by
  have key := main_loop_returned env (basename cl.argv0) cl.args cl.opts main_init status rfl h
  refine ⟨key, ?_, ?_, rfl, rfl, rfl⟩
  · constructor
    · intro hs
      rcases key with ⟨hV, _⟩ | ⟨hh, _⟩ | ⟨_, hf, _⟩ | ⟨_, hf, _⟩
      · exact Or.inl hV
      · exact Or.inr hh
      · rw [hs] at hf; exact absurd hf (by decide)
      · rw [hs] at hf; exact absurd hf (by decide)
    · intro hs
      rcases key with ⟨_, h0, _⟩ | ⟨_, h0, _⟩ | ⟨⟨c, hc, hV, hh⟩, _⟩ | ⟨hn, _⟩
      · exact h0
      · exact h0
      · rcases hs with hs | hs
        · rw [hs] at hc; cases hc; exact absurd rfl hV
        · rw [hs] at hc; cases hc; exact absurd rfl hh
      · rcases hs with hs | hs <;> rw [hs] at hn <;> cases hn
  · rcases key with ⟨_, h0, _⟩ | ⟨_, h0, _⟩ | ⟨_, hf, _⟩ | ⟨_, hf, _⟩
    · exact Or.inl h0
    · exact Or.inl h0
    · exact Or.inr hf
    · exact Or.inr hf

/-- Witness for C10: `-b 115200 /dev/ttyUSB0` with an event loop that comes back. -/
theorem C10_success_only_for_version_and_help_witness :
    (main { mi := { MI_CONTROL := 1, MI_SEQNO := 2, MI_ADDR := 4, MI_SECURITY := 8,
                      MI_ALL := 15 },
              version_line := "wsn-sniffer-cli vunk\n", uart_returns := true }
          { argv0 := "./wsn-sniffer-cli", opts := [('b', "115200")],
            args := ["/dev/ttyUSB0"] }).outcome = Outcome.returned 1
      ∧ (((stop_option [('b', "115200")] = some 'V' ∧ (1 : Int) = EXIT_SUCCESS
          ∧ (main { mi := { MI_CONTROL := 1, MI_SEQNO := 2, MI_ADDR := 4, MI_SECURITY := 8,
                            MI_ALL := 15 },
                    version_line := "wsn-sniffer-cli vunk\n", uart_returns := true }
                { argv0 := "./wsn-sniffer-cli", opts := [('b', "115200")],
                  args := ["/dev/ttyUSB0"] }).calls
              = [MainCall.printf "wsn-sniffer-cli vunk\n"])
        ∨ (stop_option [('b', "115200")] = some 'h' ∧ (1 : Int) = EXIT_SUCCESS
          ∧ (main { mi := { MI_CONTROL := 1, MI_SEQNO := 2, MI_ADDR := 4, MI_SECURITY := 8,
                            MI_ALL := 15 },
                    version_line := "wsn-sniffer-cli vunk\n", uart_returns := true }
                { argv0 := "./wsn-sniffer-cli", opts := [('b', "115200")],
                  args := ["/dev/ttyUSB0"] }).calls
              = [MainCall.help (basename "./wsn-sniffer-cli") usage])
        ∨ ((∃ c, stop_option [('b', "115200")] = some c ∧ c ≠ 'V' ∧ c ≠ 'h')
          ∧ (1 : Int) = EXIT_FAILURE
          ∧ (main { mi := { MI_CONTROL := 1, MI_SEQNO := 2, MI_ADDR := 4, MI_SECURITY := 8,
                            MI_ALL := 15 },
                    version_line := "wsn-sniffer-cli vunk\n", uart_returns := true }
                { argv0 := "./wsn-sniffer-cli", opts := [('b', "115200")],
                  args := ["/dev/ttyUSB0"] }).calls
              = [MainCall.help (basename "./wsn-sniffer-cli") usage])
        ∨ (stop_option [('b', "115200")] = none ∧ (1 : Int) = EXIT_FAILURE ∧ true = true
          ∧ ∃ tty sp, ["/dev/ttyUSB0"] = [tty]
            ∧ MainCall.start_uart tty sp
              ∈ (main { mi := { MI_CONTROL := 1, MI_SEQNO := 2, MI_ADDR := 4,
                                MI_SECURITY := 8, MI_ALL := 15 },
                        version_line := "wsn-sniffer-cli vunk\n", uart_returns := true }
                    { argv0 := "./wsn-sniffer-cli", opts := [('b', "115200")],
                      args := ["/dev/ttyUSB0"] }).calls))
        ∧ ((1 : Int) = EXIT_SUCCESS ↔
            stop_option [('b', "115200")] = some 'V' ∨ stop_option [('b', "115200")] = some 'h')
        ∧ ((1 : Int) = EXIT_SUCCESS ∨ (1 : Int) = EXIT_FAILURE)
        ∧ main { mi := { MI_CONTROL := 1, MI_SEQNO := 2, MI_ADDR := 4, MI_SECURITY := 8,
                         MI_ALL := 15 },
                 version_line := "wsn-sniffer-cli vunk\n", uart_returns := true }
              { argv0 := "./wsn-sniffer-cli", opts := [('V', "")], args := ["/dev/ttyUSB0"] }
            = { calls := [MainCall.printf "wsn-sniffer-cli vunk\n"],
                outcome := Outcome.returned EXIT_SUCCESS }
        ∧ main { mi := { MI_CONTROL := 1, MI_SEQNO := 2, MI_ADDR := 4, MI_SECURITY := 8,
                         MI_ALL := 15 },
                 version_line := "wsn-sniffer-cli vunk\n", uart_returns := true }
              { argv0 := "./wsn-sniffer-cli", opts := [('h', "")], args := ["/dev/ttyUSB0"] }
            = { calls := [MainCall.help (basename "./wsn-sniffer-cli") usage],
                outcome := Outcome.returned EXIT_SUCCESS }
        ∧ main { mi := { MI_CONTROL := 1, MI_SEQNO := 2, MI_ADDR := 4, MI_SECURITY := 8,
                         MI_ALL := 15 },
                 version_line := "wsn-sniffer-cli vunk\n", uart_returns := true }
              { argv0 := "./wsn-sniffer-cli", opts := [('?', "")], args := ["/dev/ttyUSB0"] }
            = { calls := [MainCall.help (basename "./wsn-sniffer-cli") usage],
                outcome := Outcome.returned EXIT_FAILURE }) :=
  ⟨by decide,
   C10_success_only_for_version_and_help
     { mi := { MI_CONTROL := 1, MI_SEQNO := 2, MI_ADDR := 4, MI_SECURITY := 8, MI_ALL := 15 },
       version_line := "wsn-sniffer-cli vunk\n", uart_returns := true }
     { argv0 := "./wsn-sniffer-cli", opts := [('b', "115200")], args := ["/dev/ttyUSB0"] }
     1 (by decide)⟩

end WsnSniffer
